import Mathlib

/-!
Shallow embedding of the loop-scheduler core of the `blooprs` MIDI looper
(`src/bloop.rs`, `src/key_tracker.rs`, `src/key_effect.rs`).

Machine integers are modelled as `Nat`:
* MIDI keys and velocities are 7-bit (`< 128`), channels are 4-bit (`< 16`);
  indexing and bit operations never overflow for in-range values, so no
  modular reduction is required except where noted.
* `Instant` is a monotonic time point, modelled as `Nat` (nanoseconds);
  `Duration` likewise.  Rust `Instant - Instant` saturates at zero
  (`saturating_duration_since` semantics), which coincides with `Nat`
  subtraction.
* `u16` / `u64` bitmaps are `Nat` values kept below `2 ^ 16` / `2 ^ 64`;
  the bitwise complement `!x` of the source is written as `xor` against the
  all-ones mask of the corresponding width, exactly as wide as the source
  type.
-/

/-- MIDI channel-voice message (`midly::MidiMessage`), keys/velocities as
`Nat`. -/
inductive MidiMessage where
  | noteOff (key vel : Nat)
  | noteOn (key vel : Nat)
  | aftertouch (key vel : Nat)
  | controller (controller value : Nat)
  | programChange (program : Nat)
  | channelAftertouch (vel : Nat)
  | pitchBend (bend : Nat)
deriving DecidableEq, Repr

/-- Derived press/release/aftertouch view of a message
(`src/key_effect.rs::KeyEffect`). -/
inductive KeyEffect where
  | press (key vel : Nat)
  | release (key : Nat)
  | aftertouch (key : Nat)
  | none
deriving DecidableEq, Repr

/-- Conversion `impl From<MidiMessage> for KeyEffect`
(`src/key_effect.rs` lines 10-20): a `NoteOn` with velocity 0 is a
release. -/
def KeyEffect.fromMessage : MidiMessage → KeyEffect
  | .noteOff key _ => .release key
  | .noteOn key vel => if vel = 0 then .release key else .press key vel
  | .aftertouch key _ => .aftertouch key
  | _ => .none

/-- Set of MIDI channels as a 16-bit bitmap
(`src/key_tracker.rs::ChannelSet`). -/
structure ChannelSet where
  bits : Nat
deriving DecidableEq, Repr

instance : Inhabited ChannelSet := ⟨⟨0⟩⟩

/-- Source: `self.0 |= 1 << channel`. -/
def ChannelSet.setOn (s : ChannelSet) (channel : Nat) : ChannelSet :=
  ⟨s.bits ||| (1 <<< channel)⟩

/-- Source: `self.0 &= !(1 << channel)`; the `u16` complement is xor with
`0xFFFF`. -/
def ChannelSet.setOff (s : ChannelSet) (channel : Nat) : ChannelSet :=
  ⟨s.bits &&& (65535 ^^^ (1 <<< channel))⟩

/-- Source: `self.0 != 0`. -/
def ChannelSet.any (s : ChannelSet) : Bool :=
  s.bits != 0

/-- Per-key status (`src/key_tracker.rs::KeyStatus`): channels the user is
pressing, channels recorded as pressed, and the most recent press
velocity. -/
structure KeyStatus where
  input : ChannelSet
  recording : ChannelSet
  lastVelocity : Nat
deriving DecidableEq, Repr

instance : Inhabited KeyStatus := ⟨⟨⟨0⟩, ⟨0⟩, 0⟩⟩

/-- Set of MIDI keys as a 128-bit bitmap stored as `[u64; 2]`
(`src/key_tracker.rs::KeySet`). -/
structure KeySet where
  word0 : Nat
  word1 : Nat
deriving DecidableEq, Repr

/-- Source: `KeySet::new`. -/
def KeySet.new : KeySet := ⟨0, 0⟩

/-- Source: `split_index`: array index `key >> 6` and bitmask
`1 << (key & 0x3F)`. -/
def KeySet.splitIndex (key : Nat) : Nat × Nat :=
  (key >>> 6, 1 <<< (key &&& 63))

/-- Source: `KeySet::contains`. -/
def KeySet.contains (s : KeySet) (key : Nat) : Bool :=
  let (arrayIndex, bitmask) := KeySet.splitIndex key
  if arrayIndex = 0 then s.word0 &&& bitmask != 0 else s.word1 &&& bitmask != 0

/-- Source: `KeySet::insert` (the returned "was absent" flag is unused by
the callers we model, so only the state is kept). -/
def KeySet.insert (s : KeySet) (key : Nat) : KeySet :=
  let (arrayIndex, bitmask) := KeySet.splitIndex key
  if arrayIndex = 0 then ⟨s.word0 ||| bitmask, s.word1⟩ else ⟨s.word0, s.word1 ||| bitmask⟩

/-- Source: `KeySet::remove`; the `u64` complement `!bitmask` is xor with
the 64-bit all-ones mask. -/
def KeySet.remove (s : KeySet) (key : Nat) : KeySet :=
  let (arrayIndex, bitmask) := KeySet.splitIndex key
  if arrayIndex = 0 then ⟨s.word0 &&& ((2 ^ 64 - 1) ^^^ bitmask), s.word1⟩
  else ⟨s.word0, s.word1 &&& ((2 ^ 64 - 1) ^^^ bitmask)⟩

/-- Source: `KeySet::update`: apply the key effect of a message. -/
def KeySet.update (s : KeySet) (message : MidiMessage) : KeySet :=
  match KeyEffect.fromMessage message with
  | .press key _ => s.insert key
  | .release key => s.remove key
  | _ => s

/-- Source: `impl BitOr for KeySet`. -/
def KeySet.union (s t : KeySet) : KeySet :=
  ⟨s.word0 ||| t.word0, s.word1 ||| t.word1⟩

/-- Source: `iter_u7()` = `(0..u7::max_value().as_int()).map(u7::from)`.
`u7::max_value()` is 127 and the Rust range is exclusive, so this yields
0..=126 — key 127 is never produced. -/
def iterU7 : List Nat :=
  List.range 127

/-- Source: `KeySet::iter_keys` = `iter_u7().filter(|i| contains(i))`. -/
def KeySet.iterKeys (s : KeySet) : List Nat :=
  iterU7.filter (fun key => s.contains key)

/-- Source: `FromIterator<bool> for KeySet`: insert the positions of the
`true` entries. -/
def KeySet.fromBools (l : List Bool) : KeySet :=
  (((l.enum).filter (fun p => p.2)).map (fun p => p.1)).foldl
    (fun s key => s.insert key) KeySet.new

/-- State of one pass-through gate (`src/bloop.rs::MidiPassThrough`): a
per-key channel bitmap of held keys plus the listening flag.  `PerKey<T>`
(a dense 128-entry array) is modelled as a function from key to `T`. -/
structure MidiPassThrough where
  keys : Nat → ChannelSet
  isListening : Bool

/-- Pointwise update of a per-key table (`self.keys[key] = v`). -/
def updatePerKey {T : Type} (f : Nat → T) (key : Nat) (v : T) : Nat → T :=
  fun k => if k = key then v else f k

/-- Source: `MidiPassThrough::filter_midi` (`src/bloop.rs` lines 52-73):
returns the updated gate and whether the message passes.  Presses pass iff
listening (and mark the key held); releases always clear the channel and
pass iff no channel still holds the key; aftertouch passes iff the key is
held; everything else passes iff listening. -/
def MidiPassThrough.filterMidi (pt : MidiPassThrough) (channel : Nat)
    (message : MidiMessage) : MidiPassThrough × Bool :=
  match KeyEffect.fromMessage message with
  | .press key _ =>
    if pt.isListening then
      ({ pt with keys := updatePerKey pt.keys key ((pt.keys key).setOn channel) }, true)
    else
      (pt, pt.isListening)
  | .release key =>
    let pt' := { pt with keys := updatePerKey pt.keys key ((pt.keys key).setOff channel) }
    (pt', !(pt'.keys key).any)
  | .aftertouch key => (pt, (pt.keys key).any)
  | .none => (pt, pt.isListening)

example : (KeySet.new.insert 5).contains 5 = true := by decide
example : (KeySet.new.insert 5).contains 6 = false := by decide
example : (KeySet.new.insert 127).contains 127 = true := by decide
example : (KeySet.new.insert 127).iterKeys = [] := by decide
example : (KeySet.new.insert 126).iterKeys = [126] := by decide
example : KeySet.fromBools [false, true, true] = (KeySet.new.insert 1).insert 2 := by decide

/-- Timestamped MIDI message (`src/bloop.rs::TimedMidiMessage`). -/
structure TimedMidiMessage where
  time : Nat
  message : MidiMessage
deriving DecidableEq, Repr

/-- One in-flight replay of the recording buffer
(`src/bloop.rs::BloopPlayback`). -/
structure BloopPlayback where
  keysPressed : KeySet
  index : Nat
  offset : Nat
deriving DecidableEq, Repr

/-- One loop slot (`src/bloop.rs::Bloop`).  The outbound queue sender
`midi_out_tx` is not part of the state; functions that send return the
list of events they enqueue instead. -/
structure Bloop where
  outputChannel : Nat
  passthru : MidiPassThrough
  recorder : MidiPassThrough
  isPlaybackActive : Bool
  keys : Nat → KeyStatus
  recordingBuffer : List TimedMidiMessage
  recordingStartState : List (Nat × Nat)
  recordingEndState : KeySet
  recordingStartTime : Option Nat
  recordingEndTime : Option Nat
  playbacks : List BloopPlayback
  nextQueuedPlaybackTime : Option Nat

/-- Source: `Bloop::new` (`src/bloop.rs` lines 114-134). -/
def Bloop.new (outputChannel : Nat) : Bloop where
  outputChannel := outputChannel
  passthru := { keys := fun _ => ⟨0⟩, isListening := true }
  recorder := { keys := fun _ => ⟨0⟩, isListening := false }
  isPlaybackActive := true
  keys := fun _ => default
  recordingBuffer := []
  recordingStartState := []
  recordingEndState := KeySet.new
  recordingStartTime := none
  recordingEndTime := none
  playbacks := []
  nextQueuedPlaybackTime := none

/-- Source: `Bloop::is_key_held` (`src/bloop.rs` lines 138-145): held by
the user on any channel, or (when playback is active) pressed by any
in-flight playback. -/
def Bloop.isKeyHeld (b : Bloop) (key : Nat) : Bool :=
  (b.keys key).input.any
    || (b.isPlaybackActive && b.playbacks.any (fun playback => playback.keysPressed.contains key))

/-- Source: `Bloop::send` (`src/bloop.rs` lines 150-162).  `none` means the
message was suppressed (a release for a key something else still holds);
otherwise the event `(output channel, message)` is enqueued unchanged. -/
def Bloop.send (b : Bloop) (message : MidiMessage) : Option (Nat × MidiMessage) :=
  match KeyEffect.fromMessage message with
  | .release key => if b.isKeyHeld key then none else some (b.outputChannel, message)
  | _ => some (b.outputChannel, message)

/-- Source: `Bloop::playback_keys_pressed`: union of the keys pressed by
every in-flight playback. -/
def Bloop.playbackKeysPressed (b : Bloop) : KeySet :=
  (b.playbacks.map (fun playback => playback.keysPressed)).foldl KeySet.union KeySet.new

/-- Source: `Bloop::release_keys`: send `NoteOn{key, vel: 0}` for every key
of the set; returns the events that actually reach the queue. -/
def Bloop.releaseKeys (b : Bloop) (keysToRelease : KeySet) : List (Nat × MidiMessage) :=
  keysToRelease.iterKeys.filterMap (fun key => b.send (.noteOn key 0))

/-- Source: `Bloop::cancel_recording` (`src/bloop.rs` lines 177-183): only
when a start time is set, clear both window bounds and stop the recording
gate. -/
def Bloop.cancelRecording (b : Bloop) : Bloop :=
  if b.recordingStartTime.isSome then
    { b with
      recordingStartTime := none
      recordingEndTime := none
      recorder := { b.recorder with isListening := false } }
  else b

/-- Source: `Bloop::cancel_next_playback`. -/
def Bloop.cancelNextPlayback (b : Bloop) : Bloop :=
  { b with nextQueuedPlaybackTime := none }

/-- Source: `Bloop::cancel_all_playbacks` (`src/bloop.rs` lines 184-189):
remember the union of playback-held keys, clear the playbacks and the
queued playback, then synthesise releases for those keys.  Returns the new
state and the released events. -/
def Bloop.cancelAllPlaybacks (b : Bloop) : Bloop × List (Nat × MidiMessage) :=
  let keysToRelease := b.playbackKeysPressed
  let b' := ({ b with playbacks := [] } : Bloop).cancelNextPlayback
  (b', b'.releaseKeys keysToRelease)

/-- Source: `Bloop::is_recording` (`src/bloop.rs` lines 193-202).  The Rust
code samples `Instant::now()` internally; the sample is the `now`
argument here. -/
def Bloop.isRecording (b : Bloop) (now : Nat) : Bool :=
  let pastStart := b.recordingStartTime.any (fun startTime => startTime ≤ now)
  let pastEnd := b.recordingEndTime.any (fun endTime => endTime ≤ now)
  pastStart && !pastEnd

/-- Source: `Bloop::start_recording`. -/
def Bloop.startRecording (b : Bloop) (start : Nat) (endTime : Option Nat) : Bloop :=
  { b with recordingStartTime := some start, recordingEndTime := endTime }

/-- Source: `Bloop::start_playing` (`src/bloop.rs` lines 230-248): stop the
recording gate, snapshot which keys the user currently holds, and (when a
start time exists) set the end of the window and queue the first playback
at it.  The end-state snapshot iterates `keys.iter()`, which zips
`iter_u7()` with the 128-entry array and hence visits keys 0..=126. -/
def Bloop.startPlaying (b : Bloop) (duration : Nat) : Bloop :=
  let b₁ := { b with recorder := { b.recorder with isListening := false } }
  let b₂ := { b₁ with
    recordingEndState := KeySet.fromBools (iterU7.map (fun key => (b₁.keys key).input.any)) }
  match b₂.recordingStartTime with
  | none => b₂
  | some startTime =>
    { b₂ with
      recordingEndTime := some (startTime + duration)
      nextQueuedPlaybackTime := some (startTime + duration) }

/-- Command chosen by the `DoKey(i)` dispatch arm. -/
inductive DoKeyChoice where
  | startPlaying
  | togglePlayback
  | startRecording
deriving DecidableEq, Repr

/-- Source: `BloopCommand::DoKey` dispatch (`src/bloop.rs` lines 495-505):
`StartPlaying` when the bloop is recording, else `TogglePlayback` when it
has a live or queued playback, else `StartRecording`. -/
def doKeyChoice (b : Bloop) (now : Nat) : DoKeyChoice :=
  if b.isRecording now then .startPlaying
  else if !b.playbacks.isEmpty || b.nextQueuedPlaybackTime.isSome then .togglePlayback
  else .startRecording

/-- Derived "is playing back" predicate used by the UI snapshot
(`src/bloop.rs` line 379): a playback is live or queued. -/
def Bloop.isPlayingBack (b : Bloop) : Bool :=
  !b.playbacks.isEmpty || b.nextQueuedPlaybackTime.isSome

/-- Source: `BloopCommand::StartPlaying` dispatch (`src/bloop.rs` lines
536-546), acting on the tempo anchor and bloop `i`.  If the tempo is
already known the command is skipped; otherwise, whenever the bloop has a
recording start time (whether or not it is currently recording), the loop
is closed: the tempo becomes `(start, now - start)` and the bloop starts
playing.  `now - start` is the saturating `Instant` difference. -/
def dispatchStartPlaying (epoch duration : Option Nat) (b : Bloop) (now : Nat) :
    Option Nat × Option Nat × Bloop :=
  if epoch.isSome || duration.isSome then (epoch, duration, b)
  else
    match b.recordingStartTime with
    | some start => (some start, some (now - start), b.startPlaying (now - start))
    | none => (epoch, duration, b)

/-- Source: `BloopCommand::ClearAll` dispatch (`src/bloop.rs` lines
547-554): cancel every bloop's recording and playbacks, then clear the
tempo anchor. -/
def dispatchClearAll (epoch duration : Option Nat) (bloops : List Bloop) :
    Option Nat × Option Nat × List Bloop :=
  let _ := epoch
  let _ := duration
  (none, none, bloops.map (fun b => (b.cancelRecording.cancelAllPlaybacks).1))

/-- Source: `option_at_most` (`src/bloop.rs` lines 572-577). -/
def optionAtMost (a : Option Nat) (b : Nat) : Nat :=
  match a with
  | some a => if a < b then a else b
  | _ => b

/-- Inner `while` loop of the playback drain (`src/bloop.rs` lines
340-360): advance one cursor while its next buffered event is due, staging
due events (annotated with the cursor's offset, used only to state the
staged-time property) and updating `last_velocity` on presses.  Returns
`none` for a retired cursor. -/
def drainGo (now : Nat) (active : Bool) :
    List TimedMidiMessage → BloopPlayback → (Nat → KeyStatus) →
    List (TimedMidiMessage × Nat) → Option Nat →
    Option BloopPlayback × (Nat → KeyStatus) × List (TimedMidiMessage × Nat) × Option Nat
  | [], _, keys, queued, wake => (none, keys, queued, wake)
  | event :: rest, p, keys, queued, wake =>
    if now < event.time + p.offset then
      (some p, keys, queued, some (optionAtMost wake (event.time + p.offset)))
    else
      let p' := { p with
        keysPressed := p.keysPressed.update event.message
        index := p.index + 1 }
      let keys' :=
        match KeyEffect.fromMessage event.message with
        | .press key vel => updatePerKey keys key { keys key with lastVelocity := vel }
        | _ => keys
      let queued' := if active then queued ++ [(event, p.offset)] else queued
      drainGo now active rest p' keys' queued' wake

/-- The cursor reads `buffer.get(index)`, which walks the suffix
`buffer.drop index`; the loop above recurses structurally on that
suffix. -/
def drainLoop (buffer : List TimedMidiMessage) (now : Nat) (active : Bool)
    (p : BloopPlayback) (keys : Nat → KeyStatus)
    (queued : List (TimedMidiMessage × Nat)) (wake : Option Nat) :
    Option BloopPlayback × (Nat → KeyStatus) × List (TimedMidiMessage × Nat) × Option Nat :=
  drainGo now active (buffer.drop p.index) p keys queued wake

/-- Outer `retain_mut` of the playback drain (`src/bloop.rs` lines
339-362): drain each cursor in order, keeping survivors, threading the
key table, the staged events and the wake time. -/
def drainAll (buffer : List TimedMidiMessage) (now : Nat) (active : Bool) :
    List BloopPlayback → (Nat → KeyStatus) → List (TimedMidiMessage × Nat) → Option Nat →
    List BloopPlayback × (Nat → KeyStatus) × List (TimedMidiMessage × Nat) × Option Nat
  | [], keys, queued, wake => ([], keys, queued, wake)
  | p :: ps, keys, queued, wake =>
    let (kept, keys', queued', wake') := drainLoop buffer now active p keys queued wake
    let (rest, keys₂, queued₂, wake₂) := drainAll buffer now active ps keys' queued' wake'
    (kept.toList ++ rest, keys₂, queued₂, wake₂)

/-- Ordering by original recorded time, the key of
`queued_events.sort_by_key(|event| event.time)`. -/
def timeLE (a b : TimedMidiMessage × Nat) : Prop :=
  a.1.time ≤ b.1.time

instance : DecidableRel timeLE :=
  fun a b => Nat.decLe a.1.time b.1.time

instance : IsTotal (TimedMidiMessage × Nat) timeLE :=
  ⟨fun a b => Nat.le_total a.1.time b.1.time⟩

instance : IsTrans (TimedMidiMessage × Nat) timeLE :=
  ⟨fun _ _ _ hab hbc => Nat.le_trans hab hbc⟩

/-- Drain of all cursors followed by the stable sort of the staged events
by original recorded time (`src/bloop.rs` lines 336-364; `sort_by_key` is
a stable sort, modelled by insertion sort on the same key).  The initial
wake candidate is `next_queued_playback_time`. -/
def Bloop.stageSorted (b : Bloop) (now : Nat) :
    List BloopPlayback × (Nat → KeyStatus) × List (TimedMidiMessage × Nat) × Option Nat :=
  let (playbacks', keys', queued, wake) :=
    drainAll b.recordingBuffer now b.isPlaybackActive b.playbacks b.keys []
      b.nextQueuedPlaybackTime
  (playbacks', keys', List.insertionSort timeLE queued, wake)

/-- Staged events of one tick, in the order they are handed to the send
gate, each with the offset of the cursor that staged it. -/
def Bloop.stagedEvents (b : Bloop) (now : Nat) : List (TimedMidiMessage × Nat) :=
  (b.stageSorted now).2.2.1

/-- Gate-opening step of the tick (`src/bloop.rs` lines 284-295): at the
first tick inside the window, start the recording gate with the
pass-through gate's listening flag, clear the buffer, and snapshot the
keys the user currently holds with their velocities.  `is_recording()`
samples the wall clock. -/
def tickOpenGate (b : Bloop) (wall : Nat) : Bloop :=
  if b.isRecording wall && !b.recorder.isListening then
    { b with
      recorder := { b.recorder with isListening := b.passthru.isListening }
      recordingBuffer := []
      recordingStartState :=
        (iterU7.filter (fun key => (b.keys key).input.any)).map
          (fun key => (key, (b.keys key).lastVelocity)) }
  else b

/-- Queued-playback step of the tick (`src/bloop.rs` lines 310-334): when
the queued playback is due, clear the queue slot, catch up recursively at
exactly the queued instant, seed a fresh cursor with the record-start key
state (sending its note-ons when playback is active), push the cursor and
queue the next iteration one loop later.  Returns the new state and the
events sent.  `tickQueuedCore` is the part after the catch-up call:
seeding and pushing the new cursor. -/
def tickQueuedCore (b₃' : Bloop) (sentCatchUp : List (Nat × MidiMessage))
    (queuedPlaybackTime startTime loopDuration : Nat) :
    Bloop × List (Nat × MidiMessage) :=
  let seeded := b₃'.recordingStartState.foldl
    (fun (acc : KeySet × List (Nat × MidiMessage)) (kv : Nat × Nat) =>
      (acc.1.insert kv.1,
       if b₃'.isPlaybackActive then
         acc.2 ++ (b₃'.send (.noteOn kv.1 kv.2)).toList
       else acc.2))
    (KeySet.new, [])
  let playback : BloopPlayback :=
    { keysPressed := seeded.1, index := 0, offset := queuedPlaybackTime - startTime }
  ({ b₃' with
      playbacks := b₃'.playbacks ++ [playback]
      nextQueuedPlaybackTime := some (queuedPlaybackTime + loopDuration) },
   sentCatchUp ++ seeded.2)

def tickQueuedStep
    (recurse : Bloop → Nat → Nat → Bloop × Option Nat × List (Nat × MidiMessage))
    (b₂ : Bloop) (startTime loopDuration now wall : Nat) :
    Bloop × List (Nat × MidiMessage) :=
  match b₂.nextQueuedPlaybackTime with
  | some queuedPlaybackTime =>
    if queuedPlaybackTime ≤ now then
      let rec₁ := recurse { b₂ with nextQueuedPlaybackTime := none } queuedPlaybackTime wall
      tickQueuedCore rec₁.1 rec₁.2.2 queuedPlaybackTime startTime loopDuration
    else (b₂, ([] : List (Nat × MidiMessage)))
  | none => (b₂, ([] : List (Nat × MidiMessage)))

/-- Final stage of the tick: drain all cursors, sort the staged events by
original recorded time, and send them. -/
def tickFinish (b₄ : Bloop) (now : Nat) (sent₁ : List (Nat × MidiMessage)) :
    Bloop × Option Nat × List (Nat × MidiMessage) :=
  let staged := b₄.stageSorted now
  let b₅ := { b₄ with playbacks := staged.1, keys := staged.2.1 }
  (b₅, staged.2.2.2,
    sent₁ ++ staged.2.2.1.filterMap (fun (ev : TimedMidiMessage × Nat) => b₅.send ev.1.message))

/-- Body of `Bloop::do_events_and_return_wake_time` (`src/bloop.rs` lines
276-370), with the recursive catch-up call abstracted as `recurse`.
`now` is the argument of the Rust function; `wall` is the value
`Instant::now()` takes inside `is_recording()` (the recursive call keeps
the wall clock but rewinds `now` to the queued playback time).  Returns
the new state, the wake time, and the events sent to the outbound
queue. -/
def tickBody
    (recurse : Bloop → Nat → Nat → Bloop × Option Nat × List (Nat × MidiMessage))
    (b : Bloop) (now wall : Nat) : Bloop × Option Nat × List (Nat × MidiMessage) :=
  match b.recordingStartTime with
  | none => (b, none, [])
  | some startTime =>
    if now ≤ startTime then (b, some startTime, []) else
    match (tickOpenGate b wall).recordingEndTime with
    | none => (tickOpenGate b wall, none, [])
    | some endTime =>
      if (tickOpenGate b wall).recorder.isListening && now ≤ endTime then
        (tickOpenGate b wall, some endTime, [])
      else
        tickFinish
          (tickQueuedStep recurse
            (if (tickOpenGate b wall).recorder.isListening then
              (tickOpenGate b wall).startPlaying (endTime - startTime)
            else tickOpenGate b wall)
            startTime (endTime - startTime) now wall).1
          now
          (tickQueuedStep recurse
            (if (tickOpenGate b wall).recorder.isListening then
              (tickOpenGate b wall).startPlaying (endTime - startTime)
            else tickOpenGate b wall)
            startTime (endTime - startTime) now wall).2

/-- Fuel-indexed `do_events_and_return_wake_time`: fuel bounds the depth of
the recursive catch-up call.  Fuel 0 is a degenerate bottom never reached
from fuel ≥ 2 (see the fuel-independence theorem). -/
def tickFuel : Nat → Bloop → Nat → Nat → Bloop × Option Nat × List (Nat × MidiMessage)
  | 0, b, _, _ => (b, none, [])
  | fuel + 1, b, now, wall => tickBody (tickFuel fuel) b now wall

/-- Entry point as called by the scheduler loop: `now` is both the tick
argument and the wall clock. -/
def Bloop.tick (b : Bloop) (now : Nat) : Bloop × Option Nat × List (Nat × MidiMessage) :=
  tickFuel 2 b now now

/-- Bloop with two overlapping playback cursors of one closed 2000-unit
loop (window `[0, 2000]`): the older cursor (iteration 1, offset 2000)
still owes the tail event recorded at `t = 2010`, just after the window
end (the recording gate closes lazily, at the first tick past the end, so
such an event is recorded and the catch-up at instant 4000 does not reach
it); the younger cursor (iteration 2, offset 4000) is at the start of the
buffer, and iteration 3 is queued at 6000.  A tick at 4020 — the previous
tick having happened between 4000 and 4010 — drains one due event from
each cursor. -/
def bloopOverlap : Bloop :=
  { Bloop.new 0 with
    recordingStartTime := some 0
    recordingEndTime := some 2000
    recordingBuffer := [⟨20, .noteOn 60 100⟩, ⟨2010, .noteOn 62 100⟩]
    playbacks := [⟨KeySet.new.insert 60, 1, 2000⟩, ⟨KeySet.new, 0, 4000⟩]
    nextQueuedPlaybackTime := some 6000 }

example : (bloopOverlap.stagedEvents 4020).map (fun e => e.1.time + e.2) = [4020, 4010] := by
  decide
example : (bloopOverlap.tick 4020).2.2 = [(0, .noteOn 60 100), (0, .noteOn 62 100)] := by
  decide
example : (bloopOverlap.tick 4020).2.1 = some 6000 := by decide

/-- Bloop that has just been told to start recording open-endedly at
instant 0 and whose recording gate has opened. -/
def bloopRecordingAt0 : Bloop :=
  { Bloop.new 0 with
    recordingStartTime := some 0
    recorder := { keys := fun _ => ⟨0⟩, isListening := true } }

example : bloopRecordingAt0.isRecording 0 = true := by decide
example : (dispatchStartPlaying none none bloopRecordingAt0 0).1 = some 0 := by decide
example : (dispatchStartPlaying none none bloopRecordingAt0 0).2.1 = some 0 := by decide
example :
    (dispatchStartPlaying none none bloopRecordingAt0 0).2.2.nextQueuedPlaybackTime
      = some 0 := by decide

/-- Bloop armed for a future window: recording is scheduled to start at
instant 100, nothing is playing. -/
def bloopArmed : Bloop :=
  { Bloop.new 0 with
    recordingStartTime := some 100
    recordingEndTime := some 200 }

example : bloopArmed.isRecording 50 = false := by decide
example : doKeyChoice bloopArmed 50 = .startRecording := by decide
example : (dispatchStartPlaying none none bloopArmed 50).1 = some 100 := by decide

/-- Bloop holding a non-empty recording buffer (and an armed window, so
`cancel_recording` takes its active branch). -/
def bloopWithBuffer : Bloop :=
  { Bloop.new 0 with
    recordingStartTime := some 0
    recordingBuffer := [⟨500, .noteOn 60 100⟩] }

example :
    (((dispatchClearAll (some 0) (some 2000) [bloopWithBuffer]).2.2.headD (Bloop.new 0))
      |>.recordingBuffer) = [⟨500, .noteOn 60 100⟩] := by decide

/-!  Helper lemmas shared by several claims. -/

theorem Bloop.isKeyHeld_eq_true_iff (b : Bloop) (key : Nat) :
    b.isKeyHeld key = true ↔
      ((b.keys key).input.any = true ∨
        (b.isPlaybackActive = true ∧ ∃ p ∈ b.playbacks, p.keysPressed.contains key = true)) := by
  unfold Bloop.isKeyHeld
  simp [List.any_eq_true]

theorem ChannelSet.mask_testBit (c i : Nat) :
    (65535 ^^^ (1 <<< c)).testBit i = (decide (i < 16) ^^ decide (c = i)) := by
  rw [Nat.testBit_xor]
  congr 1
  · show Nat.testBit (2 ^ 16 - 1) i = decide (i < 16)
    exact Nat.testBit_two_pow_sub_one 16 i
  · rw [Nat.one_shiftLeft]
    exact Nat.testBit_two_pow

theorem ChannelSet.setOff_bits_eq_zero_iff (s : ChannelSet) (c : Nat)
    (hs : s.bits < 2 ^ 16) (hc : c < 16) :
    (s.setOff c).bits = 0 ↔ ∀ i < 16, i ≠ c → s.bits.testBit i = false := by
  unfold ChannelSet.setOff
  constructor
  · intro h0 i hi hic
    have h := congrArg (fun n => Nat.testBit n i) h0
    simp only [Nat.testBit_and, ChannelSet.mask_testBit, Nat.zero_testBit] at h
    rw [decide_eq_true hi, decide_eq_false (fun h' => hic h'.symm)] at h
    simpa using h
  · intro hall
    apply Nat.eq_of_testBit_eq
    intro i
    simp only [Nat.testBit_and, ChannelSet.mask_testBit, Nat.zero_testBit]
    by_cases hi : i < 16
    · by_cases hic : c = i
      · rw [decide_eq_true hi, decide_eq_true hic]
        simp
      · rw [hall i hi (fun h' => hic h'.symm)]
        simp
    · have hfb : s.bits.testBit i = false := by
        apply Nat.testBit_lt_two_pow
        calc s.bits < 2 ^ 16 := hs
          _ ≤ 2 ^ i := Nat.pow_le_pow_right (by norm_num) (le_of_not_lt hi)
      rw [hfb]
      simp

theorem updatePerKey_same {T : Type} (f : Nat → T) (key : Nat) (v : T) :
    updatePerKey f key v key = v := by
  simp [updatePerKey]

theorem ChannelSet.any_eq_true_iff (s : ChannelSet) (hs : s.bits < 2 ^ 16) :
    s.any = true ↔ ∃ i < 16, s.bits.testBit i = true := by
  unfold ChannelSet.any
  constructor
  · intro hne
    by_contra hno
    push_neg at hno
    have : s.bits = 0 := by
      apply Nat.eq_of_testBit_eq
      intro i
      simp only [Nat.zero_testBit]
      by_cases hi : i < 16
      · simpa using hno i hi
      · apply Nat.testBit_lt_two_pow
        calc s.bits < 2 ^ 16 := hs
          _ ≤ 2 ^ i := Nat.pow_le_pow_right (by norm_num) (le_of_not_lt hi)
    simp [this] at hne
  · intro ⟨i, _, hbit⟩
    simp only [bne_iff_ne, ne_eq]
    intro h0
    rw [h0] at hbit
    simp [Nat.zero_testBit] at hbit

/-- C1: a message proposed on a bloop's send path is suppressed exactly
when its key effect is `Release{k}` and `k` is still held by another
source — the user's input (`keys[k].input` non-empty) or, with playback
active, some in-flight playback cursor's `keys_pressed`; any message that
is not suppressed is enqueued unchanged on the bloop's output channel. -/
theorem C1_send_release_suppression (b : Bloop) (m : MidiMessage) :
    (b.send m = none ↔
      ∃ key, KeyEffect.fromMessage m = .release key ∧
        ((b.keys key).input.any = true ∨
          (b.isPlaybackActive = true ∧
            ∃ p ∈ b.playbacks, p.keysPressed.contains key = true)))
    ∧ (b.send m = none ∨ b.send m = some (b.outputChannel, m)) := by
  cases h : KeyEffect.fromMessage m with
  | release key =>
    by_cases hk : b.isKeyHeld key = true
    · constructor
      · simp only [Bloop.send, h, hk, if_true]
        constructor
        · intro _
          exact ⟨key, rfl, (Bloop.isKeyHeld_eq_true_iff b key).mp hk⟩
        · intro _
          trivial
      · left
        simp [Bloop.send, h, hk]
    · constructor
      · simp only [Bloop.send, h, hk, if_false]
        constructor
        · intro hsome; cases hsome
        · rintro ⟨key', hkey', hheld⟩
          injection hkey' with hkk
          subst hkk
          exact absurd ((Bloop.isKeyHeld_eq_true_iff b key).mpr hheld) hk
      · right
        simp [Bloop.send, h, hk]
  | press key vel =>
    refine ⟨?_, Or.inr (by simp [Bloop.send, h])⟩
    simp [Bloop.send, h]
  | aftertouch key =>
    refine ⟨?_, Or.inr (by simp [Bloop.send, h])⟩
    simp [Bloop.send, h]
  | none =>
    refine ⟨?_, Or.inr (by simp [Bloop.send, h])⟩
    simp [Bloop.send, h]

/-- C7: in any gate state, a `Release{k}` (here a `NoteOff`) passes the
pass-through filter iff after clearing channel `c` from `held[k]` no
channel still holds `k` — equivalently, no channel other than `c` was
holding it — and this is independent of the listening flag; an
`Aftertouch{k}` passes iff some channel holds `k`. -/
theorem C7_gate_release_and_aftertouch (pt : MidiPassThrough) (channel key vel : Nat)
    (hbits : (pt.keys key).bits < 2 ^ 16) (hchannel : channel < 16) :
    ((pt.filterMidi channel (.noteOff key vel)).2 = true ↔
      ∀ c < 16, c ≠ channel → (pt.keys key).bits.testBit c = false)
    ∧ (∀ listening : Bool,
        (({ pt with isListening := listening } : MidiPassThrough).filterMidi channel
            (.noteOff key vel)).2
          = (pt.filterMidi channel (.noteOff key vel)).2)
    ∧ ((pt.filterMidi channel (.aftertouch key vel)).2 = true ↔
      ∃ c < 16, (pt.keys key).bits.testBit c = true) := by
  refine ⟨?_, ?_, ?_⟩
  · have hpass : (pt.filterMidi channel (.noteOff key vel)).2
        = !((pt.keys key).setOff channel).any := by
      show (!((updatePerKey pt.keys key ((pt.keys key).setOff channel)) key).any) = _
      rw [updatePerKey_same]
    rw [hpass]
    rw [show ((!((pt.keys key).setOff channel).any) = true) ↔
          (((pt.keys key).setOff channel).bits = 0) from by
      unfold ChannelSet.any
      simp]
    exact ChannelSet.setOff_bits_eq_zero_iff _ _ hbits hchannel
  · intro listening
    rfl
  · show ((pt.keys key).any = true) ↔ _
    exact ChannelSet.any_eq_true_iff _ hbits

/-- Gate currently holding key 60 on channels 2 and 5. -/
def gateTwoChannels : MidiPassThrough :=
  { keys := fun k => if k = 60 then ⟨(1 <<< 2) ||| (1 <<< 5)⟩ else ⟨0⟩
    isListening := true }

/-- Witness for C7 at a concrete gate: aftertouch on a key held on channel
5 passes the filter. -/
theorem C7_gate_release_and_aftertouch_witness :
    (gateTwoChannels.filterMidi 2 (.aftertouch 60 10)).2 = true :=
  ((C7_gate_release_and_aftertouch gateTwoChannels 2 60 10 (by decide) (by decide)).2.2).mpr
    ⟨5, by decide, by decide⟩

/-- C9: the key-set iterator misses key 127: `iter_u7()` iterates the
exclusive range `0..127`, so for the set containing exactly key 127,
`contains(127)` holds but `iter_keys()` yields nothing — `release_keys`
and the playback key synthesis built on it skip key 127. -/
theorem C9_iter_keys_misses_key_127 :
    (KeySet.new.insert 127).contains 127 = true
    ∧ (KeySet.new.insert 127).iterKeys = []
    ∧ (127 ∉ iterU7)
    ∧ ∀ k, k ∈ (KeySet.new.insert 127).iterKeys ↔
        ((KeySet.new.insert 127).contains k = true ∧ k ∈ iterU7) := by
  refine ⟨by decide, by decide, by decide, ?_⟩
  intro k
  unfold KeySet.iterKeys
  simp [List.mem_filter, and_comm]

/-- C2 counterexample: a bloop that is armed (record window scheduled, with
`rec_start` still in the future) but neither recording nor playing is sent
`StartRecording` by the `DoKey` dispatch, not `TogglePlayback` as the
claim requires. -/
theorem C2_counterexample_armed_bloop :
    bloopArmed.recordingStartTime = some 100
    ∧ bloopArmed.isRecording 50 = false
    ∧ bloopArmed.playbacks = []
    ∧ bloopArmed.nextQueuedPlaybackTime = none
    ∧ doKeyChoice bloopArmed 50 = .startRecording
    ∧ DoKeyChoice.startRecording ≠ DoKeyChoice.togglePlayback := by
  decide

/-- C2 amended: `DoKey(i)` issues `StartPlaying` when bloop `i` is
recording; otherwise `TogglePlayback` when it is playing back (a playback
is live or queued) — the armed state does not enter this test; otherwise
`StartRecording`. -/
theorem C2_doKey_dispatch_amended (b : Bloop) (now : Nat) :
    (b.isRecording now = true → doKeyChoice b now = .startPlaying)
    ∧ (b.isRecording now = false → b.isPlayingBack = true →
        doKeyChoice b now = .togglePlayback)
    ∧ (b.isRecording now = false → b.isPlayingBack = false →
        doKeyChoice b now = .startRecording) := by
  unfold doKeyChoice Bloop.isPlayingBack
  refine ⟨fun h₁ => by simp [h₁], fun h₁ h₂ => by simp [h₁, h₂], fun h₁ h₂ => by simp [h₁, h₂]⟩

/-- Bloop that has closed its loop and has a playback queued: not
recording at instant 300 (the window `[0, 200]` has passed) but playing
back. -/
def bloopPlaying : Bloop :=
  { Bloop.new 0 with
    recordingStartTime := some 0
    recordingEndTime := some 200
    nextQueuedPlaybackTime := some 500 }

/-- Witness for the amended C2 at a concrete playing bloop. -/
theorem C2_doKey_dispatch_amended_witness :
    doKeyChoice bloopPlaying 300 = .togglePlayback :=
  (C2_doKey_dispatch_amended bloopPlaying 300).2.1 (by decide) (by decide)

/-- C3 counterexample: after `ClearAll`, a bloop's recording buffer is not
emptied — the buffer recorded before the command survives (it is only
cleared lazily at the next transition into recording, inside the tick). -/
theorem C3_counterexample_buffer_not_cleared :
    ((dispatchClearAll (some 0) (some 2000) [bloopWithBuffer]).2.2.headD
        (Bloop.new 0)).recordingBuffer = [⟨500, .noteOn 60 100⟩]
    ∧ ([⟨500, MidiMessage.noteOn 60 100⟩] : List TimedMidiMessage) ≠ [] := by
  decide

/-- C3 amended: after a `ClearAll`, for every bloop whose state satisfies
the reachable-state invariants (an end time or an enabled recording gate
implies a start time): the record window is cancelled (start and end
`None`, recording gate disabled), playbacks and the queued playback are
cleared, the tempo anchor is `(None, None)` — but the recording buffer is
retained unchanged, not emptied. -/
theorem C3_clearAll_amended (epoch duration : Option Nat) (bloops : List Bloop)
    (hinv : ∀ b ∈ bloops,
      (b.recordingEndTime.isSome = true → b.recordingStartTime.isSome = true)
      ∧ (b.recorder.isListening = true → b.recordingStartTime.isSome = true)) :
    (dispatchClearAll epoch duration bloops).1 = none
    ∧ (dispatchClearAll epoch duration bloops).2.1 = none
    ∧ (dispatchClearAll epoch duration bloops).2.2
        = bloops.map (fun b => (b.cancelRecording.cancelAllPlaybacks).1)
    ∧ ∀ b ∈ bloops,
        ((b.cancelRecording.cancelAllPlaybacks).1.recordingStartTime = none)
        ∧ ((b.cancelRecording.cancelAllPlaybacks).1.recordingEndTime = none)
        ∧ ((b.cancelRecording.cancelAllPlaybacks).1.recorder.isListening = false)
        ∧ ((b.cancelRecording.cancelAllPlaybacks).1.playbacks = [])
        ∧ ((b.cancelRecording.cancelAllPlaybacks).1.nextQueuedPlaybackTime = none)
        ∧ ((b.cancelRecording.cancelAllPlaybacks).1.recordingBuffer = b.recordingBuffer) := by
  refine ⟨rfl, rfl, rfl, ?_⟩
  intro b hb
  obtain ⟨h1, h2⟩ := hinv b hb
  unfold Bloop.cancelAllPlaybacks Bloop.cancelNextPlayback Bloop.cancelRecording
  by_cases hs : b.recordingStartTime.isSome = true
  · simp [hs]
  · have hs' : b.recordingStartTime = none := Option.not_isSome_iff_eq_none.mp hs
    have he : b.recordingEndTime = none := by
      cases hE : b.recordingEndTime with
      | none => rfl
      | some e => exact absurd (h1 (by simp [hE])) hs
    have hl : b.recorder.isListening = false := by
      cases hL : b.recorder.isListening with
      | false => rfl
      | true => exact absurd (h2 hL) hs
    simp [hs, hs', he, hl]

/-- Witness for the amended C3 at a concrete one-bloop list. -/
theorem C3_clearAll_amended_witness :
    (dispatchClearAll (some 0) (some 2000) [bloopWithBuffer]).1 = none
    ∧ (bloopWithBuffer.cancelRecording.cancelAllPlaybacks).1.recordingStartTime = none
    ∧ (bloopWithBuffer.cancelRecording.cancelAllPlaybacks).1.recordingBuffer
        = bloopWithBuffer.recordingBuffer := by
  have h := C3_clearAll_amended (some 0) (some 2000) [bloopWithBuffer]
    (by
      intro b hb
      rw [List.mem_singleton] at hb
      subst hb
      exact ⟨by decide, by decide⟩)
  have hmem : bloopWithBuffer ∈ [bloopWithBuffer] := List.mem_singleton.mpr rfl
  exact ⟨h.1, (h.2.2.2 bloopWithBuffer hmem).1, (h.2.2.2 bloopWithBuffer hmem).2.2.2.2.2⟩

/-- C6 counterexample: with the tempo unset, `StartPlaying` on a bloop
that is merely armed (start time 100 still in the future at instant 50,
so not recording) is not ignored: the dispatch closes the loop, setting
the tempo anchor to `(Some 100, Some 0)` (the saturating difference
`50 - 100` is 0) and queueing a playback. -/
theorem C6_counterexample_armed_bloop_closes_loop :
    bloopArmed.isRecording 50 = false
    ∧ (dispatchStartPlaying none none bloopArmed 50).1 = some 100
    ∧ (dispatchStartPlaying none none bloopArmed 50).2.1 = some 0
    ∧ (dispatchStartPlaying none none bloopArmed 50).2.2.nextQueuedPlaybackTime
        = some 100 := by
  decide

/-- C6 amended: a `StartPlaying(i)` is ignored, with no state change, when
the tempo anchor is already set, or when bloop `i` has no recording start
time; the dispatch checks `recording_start_time` rather than
`is_recording`, so an armed but not-yet-recording bloop is not in the
ignored class. -/
theorem C6_startPlaying_ignore_amended (epoch duration : Option Nat) (b : Bloop) (now : Nat) :
    ((epoch.isSome = true ∨ duration.isSome = true) →
      dispatchStartPlaying epoch duration b now = (epoch, duration, b))
    ∧ (b.recordingStartTime = none →
      dispatchStartPlaying epoch duration b now = (epoch, duration, b)) := by
  constructor
  · intro h
    have hc : (epoch.isSome || duration.isSome) = true := by
      rcases h with h | h <;> simp [h]
    unfold dispatchStartPlaying
    simp [hc]
  · intro h
    unfold dispatchStartPlaying
    rw [h]
    by_cases hc : (epoch.isSome || duration.isSome) = true
    · simp [hc]
    · simp [hc]

/-- Witness for the amended C6: with the tempo epoch set, the command
leaves everything unchanged. -/
theorem C6_startPlaying_ignore_amended_witness :
    dispatchStartPlaying (some 5) none bloopArmed 50 = (some 5, none, bloopArmed) :=
  (C6_startPlaying_ignore_amended (some 5) none bloopArmed 50).1 (Or.inl rfl)

/-- C4: the degenerate zero-length close (scenario S5) is not rejected:
with the tempo unset and a bloop that started recording at instant 0, a
`StartPlaying` dispatched at the same instant 0 sets the tempo anchor to
`(Some 0, Some 0)` and queues a playback at instant 0, instead of
cancelling the recording, returning to idle and leaving the tempo
unset. -/
theorem C4_zero_duration_close_not_rejected :
    bloopRecordingAt0.isRecording 0 = true
    ∧ (dispatchStartPlaying none none bloopRecordingAt0 0).1 = some 0
    ∧ (dispatchStartPlaying none none bloopRecordingAt0 0).2.1 = some 0
    ∧ (dispatchStartPlaying none none bloopRecordingAt0 0).2.2.nextQueuedPlaybackTime = some 0
    ∧ (dispatchStartPlaying none none bloopRecordingAt0 0).2.2.recordingStartTime = some 0
    ∧ (dispatchStartPlaying none none bloopRecordingAt0 0).2.2.recordingEndTime = some 0 := by
  decide

/-- C8 counterexample: one tick of a bloop with two overlapping cursors
emits two events whose staged times (original time plus the emitting
cursor's offset) are 4020 then 4010 — a strictly decreasing pair — so the
outbound order is not non-decreasing in staged time; the ordering actually
enforced is by original recorded time (20 then 2010). -/
theorem C8_counterexample_staged_time_decreases :
    (bloopOverlap.stagedEvents 4020).map (fun e => e.1.time + e.2) = [4020, 4010]
    ∧ (bloopOverlap.stagedEvents 4020).map (fun e => e.1.time) = [20, 2010]
    ∧ (bloopOverlap.tick 4020).2.2 = [(0, .noteOn 60 100), (0, .noteOn 62 100)]
    ∧ ¬(4020 ≤ 4010) := by
  decide

/-- C8 amended: within one tick, the staged events are handed to the send
gate sorted in non-decreasing order of their original recorded time `t`
(the key of the stable sort preceding the sends); non-decreasing staged
time (`t` plus cursor offset) holds for a single cursor but not across
overlapping cursors with different offsets. -/
theorem C8_staged_sorted_by_recorded_time (b : Bloop) (now : Nat) :
    List.Sorted timeLE (b.stagedEvents now) := by
  have h : b.stagedEvents now
      = List.insertionSort timeLE
          (drainAll b.recordingBuffer now b.isPlaybackActive b.playbacks b.keys []
            b.nextQueuedPlaybackTime).2.2.1 := rfl
  rw [h]
  exact List.sorted_insertionSort timeLE _

/-!  Supporting lemmas for the tick fuel-independence theorem (C10). -/

theorem tickOpenGate_nextQueued (b : Bloop) (wall : Nat) :
    (tickOpenGate b wall).nextQueuedPlaybackTime = b.nextQueuedPlaybackTime := by
  unfold tickOpenGate
  split <;> rfl

theorem tickOpenGate_endTime (b : Bloop) (wall : Nat) :
    (tickOpenGate b wall).recordingEndTime = b.recordingEndTime := by
  unfold tickOpenGate
  split <;> rfl

theorem startPlaying_isListening (b : Bloop) (d : Nat) :
    (b.startPlaying d).recorder.isListening = false := by
  unfold Bloop.startPlaying
  cases hrs : b.recordingStartTime <;> simp [hrs]

theorem tickOpenGate_listening_true (b : Bloop) (wall : Nat)
    (hl : b.recorder.isListening = false)
    (hL : (tickOpenGate b wall).recorder.isListening = true) :
    b.isRecording wall = true := by
  unfold tickOpenGate at hL
  by_cases hc : (b.isRecording wall && !b.recorder.isListening) = true
  · rw [Bool.and_eq_true] at hc
    exact hc.1
  · rw [if_neg hc] at hL
    rw [hL] at hl
    cases hl

theorem isRecording_not_past_end (b : Bloop) (wall endTime : Nat)
    (hrec : b.isRecording wall = true) (he : b.recordingEndTime = some endTime) :
    wall < endTime := by
  unfold Bloop.isRecording at hrec
  rw [he] at hrec
  rw [Bool.and_eq_true] at hrec
  rcases hrec with ⟨-, h2⟩
  simp only [Option.any_some, Bool.not_eq_true', decide_eq_false_iff_not, not_le] at h2
  exact h2

theorem tickQueuedStep_of_none (recurse : Bloop → Nat → Nat →
      Bloop × Option Nat × List (Nat × MidiMessage))
    (b₂ : Bloop) (startTime loopDuration now wall : Nat)
    (hq : b₂.nextQueuedPlaybackTime = none) :
    tickQueuedStep recurse b₂ startTime loopDuration now wall = (b₂, []) := by
  unfold tickQueuedStep
  rw [hq]

theorem tickQueuedStep_congr (f g : Bloop → Nat → Nat →
      Bloop × Option Nat × List (Nat × MidiMessage))
    (b₂ : Bloop) (startTime loopDuration now wall : Nat)
    (hfg : ∀ n', n' ≤ now →
      f { b₂ with nextQueuedPlaybackTime := none } n' wall
        = g { b₂ with nextQueuedPlaybackTime := none } n' wall) :
    tickQueuedStep f b₂ startTime loopDuration now wall
      = tickQueuedStep g b₂ startTime loopDuration now wall := by
  unfold tickQueuedStep
  cases hq : b₂.nextQueuedPlaybackTime with
  | none => rfl
  | some qt =>
    by_cases hle : qt ≤ now
    · simp only [if_pos hle, hfg qt hle]
    · simp only [if_neg hle]

theorem tickBody_eq_of_noQueue (f g : Bloop → Nat → Nat →
      Bloop × Option Nat × List (Nat × MidiMessage))
    (b : Bloop) (now wall : Nat) (hw : now ≤ wall)
    (hq : b.nextQueuedPlaybackTime = none) (hl : b.recorder.isListening = false) :
    tickBody f b now wall = tickBody g b now wall := by
  unfold tickBody
  cases hrs : b.recordingStartTime with
  | none => rfl
  | some startTime =>
    by_cases hns : now ≤ startTime
    · simp only [if_pos hns]
    · simp only [if_neg hns]
      cases hre : (tickOpenGate b wall).recordingEndTime with
      | none => rfl
      | some endTime =>
        by_cases hcond :
            ((tickOpenGate b wall).recorder.isListening && decide (now ≤ endTime)) = true
        · simp only [if_pos hcond]
        · simp only [if_neg hcond]
          have hL : (tickOpenGate b wall).recorder.isListening = false := by
            cases hLc : (tickOpenGate b wall).recorder.isListening with
            | false => rfl
            | true =>
              exfalso
              have hrec := tickOpenGate_listening_true b wall hl hLc
              have hbe : b.recordingEndTime = some endTime := by
                rw [← tickOpenGate_endTime b wall]
                exact hre
              have hlt := isRecording_not_past_end b wall endTime hrec hbe
              have hnle : ¬(now ≤ endTime) := by
                intro hne
                apply hcond
                rw [hLc]
                simp [hne]
              omega
          have hbeq :
              (if (tickOpenGate b wall).recorder.isListening then
                (tickOpenGate b wall).startPlaying (endTime - startTime)
              else tickOpenGate b wall) = tickOpenGate b wall := by
            rw [if_neg (by rw [hL]; exact Bool.false_ne_true)]
          rw [hbeq]
          have hq₂ : (tickOpenGate b wall).nextQueuedPlaybackTime = none := by
            rw [tickOpenGate_nextQueued]
            exact hq
          rw [tickQueuedStep_of_none f _ startTime (endTime - startTime) now wall hq₂,
            tickQueuedStep_of_none g _ startTime (endTime - startTime) now wall hq₂]

theorem tickBody_congr (f g : Bloop → Nat → Nat →
      Bloop × Option Nat × List (Nat × MidiMessage))
    (b : Bloop) (now wall : Nat) (hw : now ≤ wall)
    (hfg : ∀ b' n', n' ≤ wall → b'.nextQueuedPlaybackTime = none →
      b'.recorder.isListening = false → f b' n' wall = g b' n' wall) :
    tickBody f b now wall = tickBody g b now wall := by
  unfold tickBody
  cases hrs : b.recordingStartTime with
  | none => rfl
  | some startTime =>
    by_cases hns : now ≤ startTime
    · simp only [if_pos hns]
    · simp only [if_neg hns]
      cases hre : (tickOpenGate b wall).recordingEndTime with
      | none => rfl
      | some endTime =>
        by_cases hcond :
            ((tickOpenGate b wall).recorder.isListening && decide (now ≤ endTime)) = true
        · simp only [if_pos hcond]
        · simp only [if_neg hcond]
          have hl₂ :
              (if (tickOpenGate b wall).recorder.isListening then
                (tickOpenGate b wall).startPlaying (endTime - startTime)
              else tickOpenGate b wall).recorder.isListening = false := by
            by_cases hL : (tickOpenGate b wall).recorder.isListening = true
            · rw [if_pos hL]
              exact startPlaying_isListening _ _
            · rw [if_neg hL]
              exact Bool.not_eq_true _ ▸ hL
          rw [tickQueuedStep_congr f g _ startTime (endTime - startTime) now wall
            (fun n' hn' => hfg _ n' (le_trans hn' hw) rfl hl₂)]

/-- C10: the tick terminates — its recursion depth is bounded: because the
queued-playback slot is cleared before the recursive catch-up call (and
the recording gate is off at that point), running
`do_events_and_return_wake_time` with any recursion fuel beyond 2 gives
the same result as fuel 2, for every state, tick argument `now` and wall
clock `wall ≥ now`; the cursor drain is a structurally terminating fold
over the buffer suffix. -/
theorem C10_tick_fuel_independent (fuel : Nat) (b : Bloop) (now wall : Nat)
    (hw : now ≤ wall) :
    tickFuel (fuel + 2) b now wall = tickFuel 2 b now wall := by
  show tickBody (tickFuel (fuel + 1)) b now wall = tickBody (tickFuel 1) b now wall
  apply tickBody_congr _ _ _ _ _ hw
  intro b' n' hn' hq' hl'
  show tickBody (tickFuel fuel) b' n' wall = tickBody (tickFuel 0) b' n' wall
  exact tickBody_eq_of_noQueue _ _ _ _ _ hn' hq' hl'

/-- Witness: fuel independence evaluated at a concrete state and time. -/
theorem C10_tick_fuel_independent_witness :
    tickFuel 7 bloopOverlap 4500 4500 = tickFuel 2 bloopOverlap 4500 4500 :=
  C10_tick_fuel_independent 5 bloopOverlap 4500 4500 (le_refl 4500)
